import Mathlib

/-
Verification development for the scrolling_window_pattern_matcher crate.

The first section embeds the incremental matching engine of src/lib.rs:
the pattern-element model (Exact / Predicate / Range), element settings,
the extractor registry, and the `process_item` / `process_items` state
machine of `Matcher<T, Context>`.

A later section embeds the batch repeat-handling loop of
src/lib_backup.rs (`ScrollingWindowPatternMatcherRef::find_matches`).
-/

namespace Swpm

/-- Embeds `pub type ExtractorId = u32` (src/lib.rs:72); widths play no role here. -/
abbrev ExtractorId := Nat

/-- Embeds `MatchState<T>` (src/lib.rs:87-94): the snapshot passed to extractors. -/
structure MatchState (T : Type) where
  current_item : T
  position : Nat
  total_processed : Nat
deriving Repr

/-- Embeds `ExtractorError` (src/lib.rs:98-103). -/
inductive ExtractorError where
  | ProcessingFailed (msg : String)
  | InvalidConfiguration (msg : String)
deriving DecidableEq, Repr

/-- Embeds `ExtractorAction<T>` (src/lib.rs:120-127). -/
inductive ExtractorAction (T : Type) where
  | Continue
  | Extract (data : T)
  | Restart
deriving DecidableEq, Repr

/-- Embeds the extractor function type `Extractor<T>` (src/lib.rs:130). -/
def Extractor (T : Type) := MatchState T → Except ExtractorError (ExtractorAction T)

/-- Embeds `MatcherError` (src/lib.rs:134-141); note the source type has exactly
these three constructors and no panic-related variant. -/
inductive MatcherError where
  | NoPatterns
  | InvalidPattern (msg : String)
  | ExtractorFailed (err : ExtractorError)
deriving DecidableEq, Repr

/-- Embeds `ElementSettings<Context>` (src/lib.rs:157-171). -/
structure ElementSettings (Context : Type) where
  max_retries : Nat
  optional : Bool
  timeout_ms : Option Nat
  context : Option Context
  extractor_id : Option ExtractorId

/-- Embeds `impl Default for ElementSettings` (src/lib.rs:188-201). -/
def ElementSettings.default (Context : Type) : ElementSettings Context :=
  { max_retries := 0
    optional := false
    timeout_ms := none
    context := none
    extractor_id := none }

/-- Embeds `PatternElement<T, Context>` (src/lib.rs:204-225); the predicate
variant holds its boxed function as a Lean function. -/
inductive PatternElement (T Context : Type) where
  | Exact (value : T) (settings : Option (ElementSettings Context))
  | Predicate (function : T → Bool) (settings : Option (ElementSettings Context))
  | Range (min max : T) (settings : Option (ElementSettings Context))

variable {T Context : Type}

/-- Embeds `PatternElement::settings` (src/lib.rs:301-307): the element's
settings, or the default settings when none are attached. -/
def PatternElement.settings : PatternElement T Context → ElementSettings Context
  | .Exact _ s => s.getD (ElementSettings.default Context)
  | .Predicate _ s => s.getD (ElementSettings.default Context)
  | .Range _ _ s => s.getD (ElementSettings.default Context)

/-- Embeds `PatternElement::matches` (src/lib.rs:310-316).  The source returns
`Result<bool, MatcherError>` and every arm returns `Ok`, which the embedding
mirrors. -/
def PatternElement.matches [DecidableEq T] [LE T]
    [DecidableRel (fun a b : T => a ≤ b)] :
    PatternElement T Context → T → Except MatcherError Bool
  | .Exact value _, item => Except.ok (decide (item = value))
  | .Predicate function _, item => Except.ok (function item)
  | .Range min max _, item => Except.ok (decide (min ≤ item) && decide (item ≤ max))

/-- Embeds the `Matcher<T, Context>` state (src/lib.rs:376-387).  The
`HashMap<ExtractorId, Extractor<T>>` is embedded as a lookup function. -/
structure Matcher (T Context : Type) where
  patterns : List (PatternElement T Context)
  current_position : Nat
  total_processed : Nat
  window_size : Nat
  extractors : ExtractorId → Option (Extractor T)
  context : Option Context

variable [DecidableEq T] [LE T] [DecidableRel (fun a b : T => a ≤ b)]

/-- Embeds the successful-match tail of the `process_item` loop body
(src/lib.rs:491-500): `current_position += 1`; if the pattern is complete
reset the cursor and return the item, otherwise break out of the loop (the
call then returns `Ok(None)`).  `rest` is the list of pattern elements after
the matched one, so `rest = []` exactly when `current_position + 1` reaches
`patterns.len()`. -/
def after_element_match (item : T) (rest : List (PatternElement T Context)) (pos : Nat) :
    Nat × Except MatcherError (Option T) :=
  if rest.isEmpty then (0, Except.ok (some item))
  else (pos + 1, Except.ok none)

/-- Embeds the `loop` of `Matcher::process_item` (src/lib.rs:457-512).  The
source iterates with the mutable index `self.current_position` into
`self.patterns`; the embedding recurses on the remaining suffix
`patterns.drop pos` while carrying `pos`, and returns the final
`current_position` together with the call's result.  `had_any_match` is the
source's flag of the same name (it is only consulted when the cursor runs
past the end of the pattern list). -/
def match_loop (extractors : ExtractorId → Option (Extractor T)) (item : T)
    (state : MatchState T) :
    List (PatternElement T Context) → Nat → Bool → Nat × Except MatcherError (Option T)
  | [], _, had_any_match =>
      (0, Except.ok (if had_any_match then some item else none))
  | pattern :: rest, pos, had_any_match =>
      match pattern.matches item with
      | Except.error e => (pos, Except.error e)
      | Except.ok mt =>
        if mt then
          match (pattern.settings).extractor_id with
          | some eid =>
            match extractors eid with
            | some extractor =>
              match extractor state with
              | Except.error e => (pos, Except.error (MatcherError.ExtractorFailed e))
              | Except.ok ExtractorAction.Continue => after_element_match item rest pos
              | Except.ok (ExtractorAction.Extract data) => (0, Except.ok (some data))
              | Except.ok ExtractorAction.Restart => (0, Except.ok none)
            | none => after_element_match item rest pos
          | none => after_element_match item rest pos
        else
          if (pattern.settings).optional then
            match_loop extractors item state rest (pos + 1) had_any_match
          else
            (0, Except.ok none)

/-- The match state that `process_item` builds for a call on `item`
(src/lib.rs:447-453): the item, the entry cursor, and the already
incremented processed counter. -/
def call_state (m : Matcher T Context) (item : T) : MatchState T :=
  { current_item := item
    position := m.current_position
    total_processed := m.total_processed + 1 }

/-- Embeds `Matcher::process_item` (src/lib.rs:442-515).  The Rust method
mutates `self` and returns `Result<Option<T>, MatcherError>`; the embedding
returns the updated matcher together with the result. -/
def process_item (m : Matcher T Context) (item : T) :
    Matcher T Context × Except MatcherError (Option T) :=
  if m.patterns.isEmpty then (m, Except.error MatcherError.NoPatterns)
  else
    let r := match_loop m.extractors item (call_state m item)
      (m.patterns.drop m.current_position) m.current_position false
    ({ m with total_processed := m.total_processed + 1, current_position := r.1 }, r.2)

/-- Embeds the accumulator loop of `Matcher::process_items`
(src/lib.rs:518-526): each extracted value is pushed onto `results`. -/
def process_items_loop (m : Matcher T Context) :
    List T → List T → Matcher T Context × Except MatcherError (List T)
  | [], results => (m, Except.ok results)
  | item :: rest, results =>
    match process_item m item with
    | (m', Except.error e) => (m', Except.error e)
    | (m', Except.ok none) => process_items_loop m' rest results
    | (m', Except.ok (some extracted)) => process_items_loop m' rest (results ++ [extracted])

/-- Embeds `Matcher::process_items` (src/lib.rs:518-526). -/
def process_items (m : Matcher T Context) (items : List T) :
    Matcher T Context × Except MatcherError (List T) :=
  process_items_loop m items []

/-- Embeds `Matcher::reset` (src/lib.rs:529-532). -/
def Matcher.reset (m : Matcher T Context) : Matcher T Context :=
  { m with current_position := 0, total_processed := 0 }

/-- Runs `process_item` over a list of items and records each call's result,
threading the matcher state between calls.  Used to state the stream laws of
the specification. -/
def runItems (m : Matcher T Context) : List T → List (Except MatcherError (Option T))
  | [] => []
  | item :: rest =>
    (process_item m item).2 :: runItems (process_item m item).1 rest

/-- Restates `process_items` the way the specification describes it: call
`process_item` on each item in order and collect every `Some` result in
order; the first error is returned with no further items processed.  Used
only to be compared with the source-derived `process_items`. -/
def process_items_spec (m : Matcher T Context) :
    List T → Matcher T Context × Except MatcherError (List T)
  | [] => (m, Except.ok [])
  | item :: rest =>
    match process_item m item with
    | (m', Except.error e) => (m', Except.error e)
    | (m', Except.ok r) =>
      match process_items_spec m' rest with
      | (m'', Except.error e) => (m'', Except.error e)
      | (m'', Except.ok xs) => (m'', Except.ok (r.toList ++ xs))

/-- The condition under which `process_item` treats a matched element as an
ordinary step: the element either has no extractor id, or the id is not
registered, or the registered extractor returns `Ok(Continue)` on the match
state built for this call. -/
def extractor_passes (m : Matcher T Context) (element : PatternElement T Context)
    (item : T) : Prop :=
  match (element.settings).extractor_id with
  | none => True
  | some eid =>
    match m.extractors eid with
    | none => True
    | some extractor => extractor (call_state m item) = Except.ok ExtractorAction.Continue

/-
Embedding of the batch repeat-handling loop of src/lib_backup.rs
(`ScrollingWindowPatternMatcherRef::find_matches`, lines 331-365): for one
pattern element at window position `win_pos`, consume consecutive matching
items while `repeat_count < repeat_max`, then succeed iff
`repeat_count ≥ repeat_min`.
-/

/-- Embeds `PatternElem<T>` (src/lib_backup.rs:21-45). -/
inductive PatternElem (T : Type) where
  | Value (value : T) (min_repeat max_repeat : Option Nat) (capture_name : Option String)
  | Matcher (matcher : T → Bool) (min_repeat max_repeat : Option Nat)
      (capture_name : Option String)
  | Any (min_repeat max_repeat : Option Nat) (capture_name : Option String)

/-- Embeds the `min_repeat` field selection of src/lib_backup.rs:333-337. -/
def PatternElem.min_rep : PatternElem T → Option Nat
  | .Value _ mn _ _ => mn
  | .Matcher _ mn _ _ => mn
  | .Any mn _ _ => mn

/-- Embeds the `max_repeat` field selection of src/lib_backup.rs:338-342. -/
def PatternElem.max_rep : PatternElem T → Option Nat
  | .Value _ _ mx _ => mx
  | .Matcher _ _ mx _ => mx
  | .Any _ mx _ => mx

/-- Embeds the `elem_match` test of src/lib_backup.rs:348-352. -/
def elem_match : PatternElem T → T → Bool
  | .Value value _ _ _, x => decide (x = value)
  | .Matcher matcher _ _ _, x => matcher x
  | .Any _ _ _, _ => true

/-- Embeds the `while repeat_count < repeat_max && win_pos < window.len()`
loop of src/lib_backup.rs:347-360.  `fuel` is `repeat_max - repeat_count`, so
the loop guard `repeat_count < repeat_max` is exactly `fuel > 0`; the
returned triple is `(win_pos, repeat_count, repeat_indices)`. -/
def repeat_scan (elem : PatternElem T) (window : List T) :
    Nat → Nat → Nat → List Nat → Nat × Nat × List Nat
  | 0, win_pos, repeat_count, repeat_indices => (win_pos, repeat_count, repeat_indices)
  | fuel + 1, win_pos, repeat_count, repeat_indices =>
    match window[win_pos]? with
    | none => (win_pos, repeat_count, repeat_indices)
    | some x =>
      if elem_match elem x then
        repeat_scan elem window fuel (win_pos + 1) (repeat_count + 1)
          (repeat_indices ++ [win_pos])
      else
        (win_pos, repeat_count, repeat_indices)

/-- Embeds one pattern-element step of `find_matches`
(src/lib_backup.rs:331-365): run the repeat loop from `win_pos` with
`repeat_min = min_repeat.unwrap_or(1)` and `repeat_max = max_repeat.unwrap_or(1)`;
the element fails (`matched = false`) iff `repeat_count < repeat_min`,
otherwise it yields the new window position and the matched indices. -/
def element_step (elem : PatternElem T) (window : List T) (win_pos : Nat) :
    Option (Nat × List Nat) :=
  let repeat_min := (elem.min_rep).getD 1
  let repeat_max := (elem.max_rep).getD 1
  let r := repeat_scan elem window repeat_max win_pos 0 []
  if r.2.1 < repeat_min then none else some (r.1, r.2.2)

/-
The greedy-capable batch quantifier engine.  The crate's tests
(tests/comprehensive_tests.rs, e.g. `test_greedy_vs_non_greedy`) and
examples exercise an engine whose `ElementSettings` carry `min_repeat`,
`max_repeat` and `greedy`, but that engine's source file is not present in
the repository snapshot; only src/lib.rs (no repetition settings) and
src/lib_backup.rs (no greediness) are.  Its quantifier loop is therefore
modelled from the specification.
-/

/-- Modelled from the spec: the `(min_repeat, max_repeat, greedy)` quantifier
triple of Element Settings (spec section 3), which belongs to the
greedy-capable batch engine missing from the repository snapshot. -/
structure SpecQuantifier where
  min_repeat : Nat
  max_repeat : Nat
  greedy : Bool
deriving DecidableEq, Repr

/-- Modelled from the spec: the quantifier-matching loop of spec section 4.1
for the engine missing from the snapshot (and exercised by
tests/comprehensive_tests.rs): "maintain `matched_count = 0`,
`cursor = position`.  While `matched_count < max_repeat` and input remains:
test the element's match predicate against `input[cursor]`.  If it matches,
increment `matched_count`, advance `cursor`; if non-greedy and
`matched_count ≥ min_repeat`, stop early.  If it does not match, stop the
loop."  Extractor invocation (spec section 4.2) plays no role in the
consumption counts and is not modelled.  `fuel` is
`max_repeat - matched_count`; the result is `(cursor, matched_count)`. -/
def spec_quantifier_loop (p : T → Bool) (q : SpecQuantifier) (input : List T) :
    Nat → Nat → Nat → Nat × Nat
  | 0, cursor, matched_count => (cursor, matched_count)
  | fuel + 1, cursor, matched_count =>
    match input[cursor]? with
    | none => (cursor, matched_count)
    | some x =>
      if p x then
        if !q.greedy && decide (q.min_repeat ≤ matched_count + 1) then
          (cursor + 1, matched_count + 1)
        else
          spec_quantifier_loop p q input fuel (cursor + 1) (matched_count + 1)
      else
        (cursor, matched_count)

/-- Modelled from the spec: one whole quantified-element attempt of spec
section 4.1 — run the loop, then "success iff `matched_count ≥ min_repeat`".
Returns `(success, cursor, matched_count)`. -/
def spec_quantifier_run (p : T → Bool) (q : SpecQuantifier) (input : List T)
    (position : Nat) : Bool × Nat × Nat :=
  let r := spec_quantifier_loop p q input q.max_repeat position 0
  (decide (q.min_repeat ≤ r.2), r.1, r.2)

/-
Concrete matcher instances used by the stream-law statements.
-/

/-- The chain `[Exact(1), Exact(2), Exact(3)]` of spec section 8, with no
extractors registered. -/
def chain123 : Matcher Nat Unit :=
  { patterns := [PatternElement.Exact 1 none, PatternElement.Exact 2 none,
      PatternElement.Exact 3 none]
    current_position := 0, total_processed := 0, window_size := 10
    extractors := fun _ => none, context := none }

/-- Element settings with `optional = true` and everything else default. -/
def optSettings : ElementSettings Unit :=
  { max_retries := 0, optional := true, timeout_ms := none, context := none,
    extractor_id := none }

/-- The chain `[Exact(1), Exact(2).optional, Exact(3)]` of the
optional-element law. -/
def chainOpt : Matcher Nat Unit :=
  { patterns := [PatternElement.Exact 1 none,
      PatternElement.Exact 2 (some optSettings), PatternElement.Exact 3 none]
    current_position := 0, total_processed := 0, window_size := 10
    extractors := fun _ => none, context := none }

/-- Element settings with `extractor_id = Some(1)` and everything else
default. -/
def extractorOneSettings : ElementSettings Unit :=
  { max_retries := 0, optional := false, timeout_ms := none, context := none,
    extractor_id := some 1 }

/-- The extractor of the `Extract` round-trip law: doubles `current_item`. -/
def doubleExtractor : Extractor Nat :=
  fun state => Except.ok (ExtractorAction.Extract (state.current_item * 2))

/-- A matcher whose single element `Exact(5)` carries the doubling extractor
under id 1. -/
def doubling5 : Matcher Nat Unit :=
  { patterns := [PatternElement.Exact 5 (some extractorOneSettings)]
    current_position := 0, total_processed := 0, window_size := 10
    extractors := fun i => if i = 1 then some doubleExtractor else none
    context := none }

/-- An extractor that always fails with an explicit error. -/
def failExtractor : Extractor Nat :=
  fun _ => Except.error (ExtractorError.ProcessingFailed "boom")

/-- A matcher whose single element `Exact(42)` carries the failing extractor
under id 1. -/
def failing42 : Matcher Nat Unit :=
  { patterns := [PatternElement.Exact 42 (some extractorOneSettings)]
    current_position := 0, total_processed := 0, window_size := 10
    extractors := fun i => if i = 1 then some failExtractor else none
    context := none }

/-- A matcher with the single element `Exact(42)` and no extractors. -/
def single42 : Matcher Nat Unit :=
  { patterns := [PatternElement.Exact 42 none]
    current_position := 0, total_processed := 0, window_size := 10
    extractors := fun _ => none, context := none }

/-
Theorems.
-/

/-- Claim C1: with a non-empty pattern chain, when `process_item` receives an
item that matches the element at the current cursor (no attached extractor,
or an extractor returning `Continue`) and the cursor is at the last element
(`cursor + 1 = pattern length`, i.e. the remaining suffix is exactly that
element), the call returns `Ok(Some(item))` and resets the cursor to 0; hence
feeding `[1,2,3]` twice into the chain `[Exact(1), Exact(2), Exact(3)]`
yields `None, None, Some(3), None, None, Some(3)` with no explicit reset. -/
theorem c1_completion_returns_item_and_resets
    {T Context : Type} [DecidableEq T] [LE T] [DecidableRel (fun a b : T => a ≤ b)]
    (m : Matcher T Context) (item : T) (element : PatternElement T Context)
    (hdrop : m.patterns.drop m.current_position = [element])
    (hmatch : element.matches item = Except.ok true)
    (hext : extractor_passes m element item) :
    process_item m item =
      ({ m with total_processed := m.total_processed + 1, current_position := 0 },
        Except.ok (some item)) ∧
    runItems chain123 [1, 2, 3, 1, 2, 3] =
      [Except.ok none, Except.ok none, Except.ok (some 3),
       Except.ok none, Except.ok none, Except.ok (some 3)] := by
  refine ⟨?_, by rfl⟩
  have hne : m.patterns.isEmpty = false := by
    cases hp : m.patterns with
    | nil => rw [hp] at hdrop; simp at hdrop
    | cons a l => simp
  unfold process_item
  simp only [hne, Bool.false_eq_true, if_false, hdrop]
  unfold match_loop
  rw [hmatch]
  unfold extractor_passes at hext
  cases h1 : (element.settings).extractor_id with
  | none => simp [h1, after_element_match]
  | some eid =>
    simp only [h1] at hext
    cases h2 : m.extractors eid with
    | none => simp [h1, h2, after_element_match]
    | some extractor =>
      simp only [h2] at hext
      simp [h1, h2, hext, after_element_match]

/-- Claim C1 witness: the general part applied to the matcher `single42` and
item 42 — the single-element chain completes, returns the item and resets the
cursor to 0. -/
theorem c1_witness :
    process_item single42 42 =
      ({ single42 with total_processed := 1, current_position := 0 },
        Except.ok (some 42)) :=
  (c1_completion_returns_item_and_resets single42 42 (PatternElement.Exact 42 none)
    rfl rfl trivial).1

/-- Claim C2: on a mismatch at the current cursor, a non-optional element
resets the cursor to 0 and the call returns `Ok(None)`, while an optional
element advances the cursor by 1 and re-tests the same item against the next
element within the same call (the loop step); for the chain
`[Exact(1), Exact(2).optional, Exact(3)]` the inputs `[1,2,3]` and `[1,3]`
both complete with `Some(3)` and `[1,4]` does not complete. -/
theorem c2_mismatch_optional_skip_nonoptional_reset
    {T Context : Type} [DecidableEq T] [LE T] [DecidableRel (fun a b : T => a ≤ b)]
    (m : Matcher T Context) (item : T) (element : PatternElement T Context)
    (rest : List (PatternElement T Context))
    (hdrop : m.patterns.drop m.current_position = element :: rest)
    (hmatch : element.matches item = Except.ok false) :
    ((element.settings).optional = false →
      process_item m item =
        ({ m with total_processed := m.total_processed + 1, current_position := 0 },
          Except.ok none)) ∧
    ((element.settings).optional = true →
      ∀ (extractors : ExtractorId → Option (Extractor T)) (state : MatchState T)
        (pos : Nat) (had : Bool),
        match_loop extractors item state (element :: rest) pos had =
          match_loop extractors item state rest (pos + 1) had) ∧
    runItems chainOpt [1, 2, 3] =
      [Except.ok none, Except.ok none, Except.ok (some 3)] ∧
    runItems chainOpt [1, 3] = [Except.ok none, Except.ok (some 3)] ∧
    runItems chainOpt [1, 4] = [Except.ok none, Except.ok none] := by
  have hne : m.patterns.isEmpty = false := by
    cases hp : m.patterns with
    | nil => rw [hp] at hdrop; simp at hdrop
    | cons a l => simp
  refine ⟨?_, ?_, by rfl, by rfl, by rfl⟩
  · intro hopt
    unfold process_item
    simp only [hne, Bool.false_eq_true, if_false, hdrop]
    unfold match_loop
    rw [hmatch]
    simp [hopt]
  · intro hopt extractors state pos had
    conv => lhs; unfold match_loop
    rw [hmatch]
    simp [hopt]

/-- Claim C2 witness: the non-optional part applied to the chain
`[Exact(1), Exact(2).optional, Exact(3)]` at cursor 2 with item 4 — the
mismatch resets the cursor to 0 and returns `Ok(None)`. -/
theorem c2_witness :
    process_item { chainOpt with current_position := 2 } 4 =
      ({ chainOpt with current_position := 0, total_processed := 1 },
        Except.ok none) :=
  (c2_mismatch_optional_skip_nonoptional_reset
    { chainOpt with current_position := 2 } 4 (PatternElement.Exact 3 none) []
    rfl rfl).1 rfl

/-- Claim C3: when the element at the current cursor matches and carries a
registered extractor, an `Extract(v)` action makes the call return
`Ok(Some(v))` with the cursor reset to 0, a `Restart` action makes it return
`Ok(None)` with the cursor reset to 0, and a `Continue` action advances the
cursor by 1 and proceeds normally (completing the pattern when the matched
element was the last); the doubling extractor on `Exact(5)` makes
`process_item(5)` return `Some(10)`. -/
theorem c3_extractor_action_dispatch
    {T Context : Type} [DecidableEq T] [LE T] [DecidableRel (fun a b : T => a ≤ b)]
    (m : Matcher T Context) (item : T) (element : PatternElement T Context)
    (rest : List (PatternElement T Context)) (eid : ExtractorId)
    (extractor : Extractor T) (v : T)
    (hdrop : m.patterns.drop m.current_position = element :: rest)
    (hmatch : element.matches item = Except.ok true)
    (hid : (element.settings).extractor_id = some eid)
    (hreg : m.extractors eid = some extractor) :
    (extractor (call_state m item) = Except.ok (ExtractorAction.Extract v) →
      process_item m item =
        ({ m with total_processed := m.total_processed + 1, current_position := 0 },
          Except.ok (some v))) ∧
    (extractor (call_state m item) = Except.ok ExtractorAction.Restart →
      process_item m item =
        ({ m with total_processed := m.total_processed + 1, current_position := 0 },
          Except.ok none)) ∧
    (extractor (call_state m item) = Except.ok ExtractorAction.Continue →
      process_item m item =
        ({ m with total_processed := m.total_processed + 1,
                  current_position := if rest.isEmpty then 0 else m.current_position + 1 },
          Except.ok (if rest.isEmpty then some item else none))) ∧
    process_item doubling5 5 =
      ({ doubling5 with total_processed := 1, current_position := 0 },
        Except.ok (some 10)) := by
  have hne : m.patterns.isEmpty = false := by
    cases hp : m.patterns with
    | nil => rw [hp] at hdrop; simp at hdrop
    | cons a l => simp
  refine ⟨?_, ?_, ?_, by rfl⟩
  · intro hact
    unfold process_item
    simp only [hne, Bool.false_eq_true, if_false, hdrop]
    unfold match_loop
    rw [hmatch]
    simp [hid, hreg, hact]
  · intro hact
    unfold process_item
    simp only [hne, Bool.false_eq_true, if_false, hdrop]
    unfold match_loop
    rw [hmatch]
    simp [hid, hreg, hact]
  · intro hact
    unfold process_item
    simp only [hne, Bool.false_eq_true, if_false, hdrop]
    unfold match_loop
    rw [hmatch]
    simp only [hid, hreg, hact]
    cases rest with
    | nil => simp [after_element_match]
    | cons b l => simp [after_element_match]

/-- Claim C3 witness: the `Extract` part applied to the matcher `doubling5`
and item 5 — the doubling extractor surfaces `Some(10)` and resets the
cursor. -/
theorem c3_witness :
    process_item doubling5 5 =
      ({ doubling5 with total_processed := 1, current_position := 0 },
        Except.ok (some 10)) :=
  (c3_extractor_action_dispatch doubling5 5
    (PatternElement.Exact 5 (some extractorOneSettings)) [] 1 doubleExtractor 10
    rfl rfl rfl rfl).1 rfl

/-- Claim C4: an extractor that returns `Err(e)` during `process_item` makes
the in-flight call abort with `Err(ExtractorFailed(e))` — both at the level
of the matching loop (whatever the loop position and flag) and at the level
of the whole `process_item` call. -/
theorem c4_extractor_error_surfaced
    {T Context : Type} [DecidableEq T] [LE T] [DecidableRel (fun a b : T => a ≤ b)]
    (exs : ExtractorId → Option (Extractor T)) (item : T)
    (element : PatternElement T Context) (rest : List (PatternElement T Context))
    (eid : ExtractorId) (extractor : Extractor T) (e : ExtractorError)
    (hmatch : element.matches item = Except.ok true)
    (hid : (element.settings).extractor_id = some eid)
    (hreg : exs eid = some extractor) :
    (∀ (state : MatchState T) (pos : Nat) (had : Bool),
      extractor state = Except.error e →
      match_loop exs item state (element :: rest) pos had =
        (pos, Except.error (MatcherError.ExtractorFailed e))) ∧
    (∀ m : Matcher T Context, m.extractors = exs →
      m.patterns.drop m.current_position = element :: rest →
      extractor (call_state m item) = Except.error e →
      (process_item m item).2 = Except.error (MatcherError.ExtractorFailed e)) := by
  constructor
  · intro state pos had herr
    unfold match_loop
    rw [hmatch]
    simp [hid, hreg, herr]
  · intro m hexs hdrop herr
    have hne : m.patterns.isEmpty = false := by
      cases hp : m.patterns with
      | nil => rw [hp] at hdrop; simp at hdrop
      | cons a l => simp
    unfold process_item
    simp only [hne, Bool.false_eq_true, if_false, hdrop, hexs]
    unfold match_loop
    rw [hmatch]
    simp [hid, hreg, herr]

/-- Claim C4 witness: applied to the matcher `failing42` and item 42 — the
failing extractor's error is surfaced as `ExtractorFailed`. -/
theorem c4_witness :
    (process_item failing42 42).2 =
      Except.error (MatcherError.ExtractorFailed
        (ExtractorError.ProcessingFailed "boom")) :=
  (c4_extractor_error_surfaced failing42.extractors 42
    (PatternElement.Exact 42 (some extractorOneSettings)) [] 1 failExtractor
    (ExtractorError.ProcessingFailed "boom") rfl rfl rfl).2 failing42 rfl rfl rfl

/-- Claim C5 (code evidence): the source error type `MatcherError`
(src/lib.rs:133-141) has exactly the constructors `NoPatterns`,
`InvalidPattern` and `ExtractorFailed` — there is no `ExtractorPanic`
variant, so no failure-isolation boundary can surface one; extractors are
invoked directly in `process_item` (src/lib.rs:475) with no wrapping. -/
theorem c5_matcher_error_has_no_panic_variant :
    ∀ e : MatcherError, e = MatcherError.NoPatterns ∨
      (∃ msg, e = MatcherError.InvalidPattern msg) ∨
      (∃ err, e = MatcherError.ExtractorFailed err) := by
  intro e
  cases e with
  | NoPatterns => exact Or.inl rfl
  | InvalidPattern msg => exact Or.inr (Or.inl ⟨msg, rfl⟩)
  | ExtractorFailed err => exact Or.inr (Or.inr ⟨err, rfl⟩)

/-- The accumulator loop of `process_items` computes the specification-side
recursion with the accumulator prepended to the collected values. -/
theorem process_items_loop_eq_spec
    {T Context : Type} [DecidableEq T] [LE T] [DecidableRel (fun a b : T => a ≤ b)] :
    ∀ (items : List T) (m : Matcher T Context) (acc : List T),
      process_items_loop m items acc =
        ((process_items_spec m items).1,
          (process_items_spec m items).2.map (fun xs => acc ++ xs)) := by
  intro items
  induction items with
  | nil => intro m acc; simp [process_items_loop, process_items_spec, Except.map]
  | cons item rest ih =>
    intro m acc
    simp only [process_items_loop, process_items_spec]
    cases hp : process_item m item with
    | mk m' r =>
      cases r with
      | error e => simp [Except.map]
      | ok o =>
        cases o with
        | none =>
          simp only
          rw [ih]
          cases hs : process_items_spec m' rest with
          | mk m'' r' =>
            cases r' with
            | error e => simp [Except.map]
            | ok xs => simp [Except.map]
        | some x =>
          simp only
          rw [ih]
          cases hs : process_items_spec m' rest with
          | mk m'' r' =>
            cases r' with
            | error e => simp [Except.map]
            | ok xs => simp [Except.map]

/-- Claim C6: `process_items` is equivalent to calling `process_item` on each
item in order and collecting every `Some` result in order — all successes
yield `Ok` of exactly those values in input order, and a failing call yields
that first error with no further items processed (the behaviour of
`process_items_spec`). -/
theorem c6_process_items_collects_in_order
    {T Context : Type} [DecidableEq T] [LE T] [DecidableRel (fun a b : T => a ≤ b)]
    (m : Matcher T Context) (items : List T) :
    process_items m items = process_items_spec m items := by
  unfold process_items
  rw [process_items_loop_eq_spec]
  cases hs : process_items_spec m items with
  | mk m' r =>
    cases r with
    | error e => simp [Except.map]
    | ok xs => simp [Except.map]

/-- Claim C9: the engine never inspects the user context — two matchers whose
states differ only in the `context` field produce equal `process_item`
results on the same item and leave equal cursors, processed counters and
pattern tables. -/
theorem c9_context_independence
    {T Context : Type} [DecidableEq T] [LE T] [DecidableRel (fun a b : T => a ≤ b)]
    (m : Matcher T Context) (c₁ c₂ : Option Context) (item : T) :
    (process_item { m with context := c₁ } item).2 =
      (process_item { m with context := c₂ } item).2 ∧
    (process_item { m with context := c₁ } item).1.current_position =
      (process_item { m with context := c₂ } item).1.current_position ∧
    (process_item { m with context := c₁ } item).1.total_processed =
      (process_item { m with context := c₂ } item).1.total_processed ∧
    (process_item { m with context := c₁ } item).1.patterns =
      (process_item { m with context := c₂ } item).1.patterns := by
  cases h : m.patterns.isEmpty <;>
    simp [process_item, call_state, h]

/-- Bounds of the modelled quantifier loop: the matched count never
decreases, the cursor advances by exactly the number of newly matched items,
and at most `fuel` further items are matched. -/
theorem spec_quantifier_loop_bounds {T : Type} (p : T → Bool) (q : SpecQuantifier)
    (input : List T) :
    ∀ (fuel cursor matched_count : Nat),
      matched_count ≤ (spec_quantifier_loop p q input fuel cursor matched_count).2 ∧
      (spec_quantifier_loop p q input fuel cursor matched_count).1 =
        cursor + ((spec_quantifier_loop p q input fuel cursor matched_count).2 -
          matched_count) ∧
      (spec_quantifier_loop p q input fuel cursor matched_count).2 ≤
        matched_count + fuel := by
  intro fuel
  induction fuel with
  | zero => intro cursor cnt; simp [spec_quantifier_loop]
  | succ fuel ih =>
    intro cursor cnt
    simp only [spec_quantifier_loop]
    cases hx : input[cursor]? with
    | none => refine ⟨?_, ?_, ?_⟩ <;> simp
    | some x =>
      cases hpx : p x with
      | false =>
        simp only [hpx, Bool.false_eq_true, if_false]
        refine ⟨?_, ?_, ?_⟩ <;> simp
      | true =>
        simp only [hpx, if_true]
        split
        · refine ⟨?_, ?_, ?_⟩ <;> simp
        · obtain ⟨h1, h2, h3⟩ := ih (cursor + 1) (cnt + 1)
          refine ⟨?_, ?_, ?_⟩ <;> omega

/-- Claim C7: in the batch quantifier loop an element consumes consecutive
matching items while `matched_count < max_repeat`; the element succeeds iff
`matched_count ≥ min_repeat`, the number of consumed items equals the number
of matched repetitions (`cursor = position + matched_count`), and greediness
controls consumption — `Exact(1)` with `min_repeat = 2`, `max_repeat = 4`
against `[1,1,1,1,2]` consumes 4 ones when greedy and exactly 2 when
non-greedy. -/
theorem c7_quantifier_repetition_and_greediness
    {T : Type} (p : T → Bool) (q : SpecQuantifier) (input : List T) (position : Nat) :
    ((spec_quantifier_run p q input position).1 = true ↔
      q.min_repeat ≤ (spec_quantifier_run p q input position).2.2) ∧
    (spec_quantifier_run p q input position).2.1 =
      position + (spec_quantifier_run p q input position).2.2 ∧
    (spec_quantifier_run p q input position).2.2 ≤ q.max_repeat ∧
    spec_quantifier_run (fun x => decide (x = (1 : Nat)))
      ⟨2, 4, true⟩ [1, 1, 1, 1, 2] 0 = (true, 4, 4) ∧
    spec_quantifier_run (fun x => decide (x = (1 : Nat)))
      ⟨2, 4, false⟩ [1, 1, 1, 1, 2] 0 = (true, 2, 2) := by
  obtain ⟨h1, h2, h3⟩ := spec_quantifier_loop_bounds p q input q.max_repeat position 0
  refine ⟨?_, ?_, ?_, by rfl, by rfl⟩
  · simp [spec_quantifier_run]
  · simp only [spec_quantifier_run]
    omega
  · simp only [spec_quantifier_run]
    omega

/-- Claim C8 counterexample: in the repeat loop of `find_matches`
(src/lib_backup.rs:331-365), the element `Value(1)` with `min_repeat = 0`
and `max_repeat = 0` succeeds at position 0 of the window `[1]` while
consuming nothing — even though the element DOES match the current item 1,
which the claim says should make the negative assertion fail. -/
theorem c8_counterexample :
    element_step (PatternElem.Value (1 : Nat) (some 0) (some 0) none) [1] 0 =
      some (0, []) ∧
    elem_match (PatternElem.Value (1 : Nat) (some 0) (some 0) none) 1 = true :=
  ⟨rfl, rfl⟩

/-- Claim C8 as amended: an element with `min_repeat = 0` and
`max_repeat = 0` always succeeds and consumes zero items, regardless of
whether the element matches the current item — the repeat loop never runs,
so the element is never tested against the window. -/
theorem c8_zero_repeat_always_succeeds
    {T : Type} [DecidableEq T] (elem : PatternElem T) (window : List T) (win_pos : Nat)
    (hmin : elem.min_rep = some 0) (hmax : elem.max_rep = some 0) :
    element_step elem window win_pos = some (win_pos, []) := by
  unfold element_step
  rw [hmin, hmax]
  simp [repeat_scan]

/-- Claim C8 witness: the amended statement applied to `Value(2)` with
`min_repeat = max_repeat = 0` at position 0 of the window `[2]`. -/
theorem c8_witness :
    element_step (PatternElem.Value (2 : Nat) (some 0) (some 0) none) [2] 0 =
      some (0, []) :=
  c8_zero_repeat_always_succeeds (PatternElem.Value 2 (some 0) (some 0) none) [2] 0
    rfl rfl

/-- On an `Ok` outcome the matching loop leaves the cursor inside the pattern
list, and on an `Ok(Some(_))` outcome it leaves the cursor at 0.  `remaining`
is the suffix of `patterns` from `pos`. -/
theorem match_loop_ok_bounds
    {T Context : Type} [DecidableEq T] [LE T] [DecidableRel (fun a b : T => a ≤ b)]
    (exs : ExtractorId → Option (Extractor T)) (item : T) (state : MatchState T) :
    ∀ (remaining patterns : List (PatternElement T Context)) (pos : Nat) (had : Bool),
      remaining = patterns.drop pos → patterns ≠ [] →
      ∀ (pos' : Nat) (res : Except MatcherError (Option T)),
        match_loop exs item state remaining pos had = (pos', res) →
        ∀ o, res = Except.ok o →
          pos' < patterns.length ∧ (∀ v, o = some v → pos' = 0) := by
  intro remaining
  induction remaining with
  | nil =>
    intro patterns pos had hrem hne pos' res hml o hres
    simp only [match_loop] at hml
    obtain ⟨h1, h2⟩ := (Prod.mk.injEq _ _ _ _).mp hml
    subst h1
    exact ⟨List.length_pos.mpr hne, fun v hv => rfl⟩
  | cons element rest ih =>
    intro patterns pos had hrem hne pos' res hml o hres
    have ht : (patterns.drop pos).tail = patterns.drop (pos + 1) := List.tail_drop patterns pos
    rw [← hrem] at ht
    have hrest : rest = patterns.drop (pos + 1) := by simpa using ht
    simp only [match_loop] at hml
    cases hm : element.matches item with
    | error e =>
      rw [hm] at hml
      obtain ⟨h1, h2⟩ := (Prod.mk.injEq _ _ _ _).mp hml
      rw [← h2] at hres
      simp at hres
    | ok mt =>
      rw [hm] at hml
      cases mt with
      | false =>
        simp only [Bool.false_eq_true, if_false] at hml
        by_cases hopt : (element.settings).optional = true
        · rw [if_pos hopt] at hml
          exact ih patterns (pos + 1) had hrest hne pos' res hml o hres
        · rw [if_neg hopt] at hml
          obtain ⟨h1, h2⟩ := (Prod.mk.injEq _ _ _ _).mp hml
          subst h1
          exact ⟨List.length_pos.mpr hne, fun v hv => rfl⟩
      | true =>
        simp only [if_true] at hml
        have hafter : after_element_match item rest pos = (pos', res) →
            pos' < patterns.length ∧ (∀ v, o = some v → pos' = 0) := by
          intro hml'
          unfold after_element_match at hml'
          cases hrr : rest with
          | nil =>
            rw [hrr] at hml'
            simp only [List.isEmpty_nil, if_true] at hml'
            obtain ⟨h1, h2⟩ := (Prod.mk.injEq _ _ _ _).mp hml'
            subst h1
            exact ⟨List.length_pos.mpr hne, fun v hv => rfl⟩
          | cons b l =>
            rw [hrr] at hml'
            simp only [List.isEmpty_cons, Bool.false_eq_true, if_false] at hml'
            obtain ⟨h1, h2⟩ := (Prod.mk.injEq _ _ _ _).mp hml'
            have hlen : pos + 1 < patterns.length := by
              have hnn : patterns.drop (pos + 1) ≠ [] := by
                rw [← hrest, hrr]; simp
              have hle := (not_congr List.drop_eq_nil_iff).mp hnn
              omega
            subst h1
            have ho := h2.trans hres
            injection ho with h3
            refine ⟨hlen, ?_⟩
            intro v hv
            rw [← h3] at hv
            simp at hv
        cases hid : (element.settings).extractor_id with
        | none =>
          simp only [hid] at hml
          exact hafter hml
        | some eid =>
          simp only [hid] at hml
          cases hreg : exs eid with
          | none =>
            simp only [hreg] at hml
            exact hafter hml
          | some extractor =>
            simp only [hreg] at hml
            cases hact : extractor state with
            | error e =>
              simp only [hact] at hml
              obtain ⟨h1, h2⟩ := (Prod.mk.injEq _ _ _ _).mp hml
              rw [← h2] at hres
              simp at hres
            | ok act =>
              cases act with
              | Continue =>
                simp only [hact] at hml
                exact hafter hml
              | Extract data =>
                simp only [hact] at hml
                obtain ⟨h1, h2⟩ := (Prod.mk.injEq _ _ _ _).mp hml
                subst h1
                exact ⟨List.length_pos.mpr hne, fun v hv => rfl⟩
              | Restart =>
                simp only [hact] at hml
                obtain ⟨h1, h2⟩ := (Prod.mk.injEq _ _ _ _).mp hml
                subst h1
                exact ⟨List.length_pos.mpr hne, fun v hv => rfl⟩

/-- Claim C10: every `process_item` call that returns `Ok` leaves the cursor
strictly below the pattern count (and trivially at or above 0), and every
call that returns `Ok(Some(_))` leaves the cursor exactly at 0 — a value is
only surfaced with the machine back in its initial cursor state. -/
theorem c10_cursor_invariant
    {T Context : Type} [DecidableEq T] [LE T] [DecidableRel (fun a b : T => a ≤ b)]
    (m : Matcher T Context) (item : T) (m' : Matcher T Context) (r : Option T)
    (h : process_item m item = (m', Except.ok r)) :
    m'.current_position < m'.patterns.length ∧
    (∀ v, r = some v → m'.current_position = 0) := by
  simp only [process_item] at h
  by_cases hp : m.patterns.isEmpty = true
  · rw [if_pos hp] at h
    obtain ⟨h1, h2⟩ := (Prod.mk.injEq _ _ _ _).mp h
    simp at h2
  · rw [if_neg hp] at h
    have hne : m.patterns ≠ [] := fun hnil => hp (by rw [hnil]; rfl)
    cases hml : match_loop m.extractors item (call_state m item)
        (m.patterns.drop m.current_position) m.current_position false with
    | mk pos' res =>
      rw [hml] at h
      obtain ⟨h1, h2⟩ := (Prod.mk.injEq _ _ _ _).mp h
      have hb := match_loop_ok_bounds m.extractors item (call_state m item)
        (m.patterns.drop m.current_position) m.patterns m.current_position false
        rfl hne pos' res hml r h2
      rw [← h1]
      simpa using hb

/-- Claim C10 witness: the invariant applied to the matcher `single42` and
item 42, whose call returns `Ok(Some(42))` and leaves the cursor at 0. -/
theorem c10_witness :
    ({ single42 with total_processed := 1,
                     current_position := 0 } : Matcher Nat Unit).current_position <
      ({ single42 with total_processed := 1,
                       current_position := 0 } : Matcher Nat Unit).patterns.length ∧
    (∀ v, (some 42 : Option Nat) = some v →
      ({ single42 with total_processed := 1,
                       current_position := 0 } : Matcher Nat Unit).current_position = 0) :=
  c10_cursor_invariant single42 42
    { single42 with total_processed := 1, current_position := 0 } (some 42) rfl

end Swpm
